import Mathlib

/-!
Verification of the caii-voice-server repository: a shallow embedding of
the voice catalog (`app/config.py`), the TTS manager (`app/dependencies.py`),
the voice/TTS routes (`app/api/routes/voice.py`, `app/api/routes/tts.py`),
and the auth and rate-limit middleware (`app/middleware/auth.py`,
`app/middleware/rate_limit.py`), together with theorems settling the spec's
claims about them.
-/

namespace VoiceServer

/-! ## Voice catalog data model (`app/config.py`) -/

/-- A voice entry as stored in the catalog document:
`{"file": ..., "description": ..., "instruct": ...}`. -/
structure VoiceEntry where
  file : String
  description : String
  instruct : String
  deriving DecidableEq, Repr

/-- Python dict assignment `d[k] = v` on a string-keyed association list:
updates the value in place when the key is present, appends otherwise. -/
def dictInsert {α : Type} (k : String) (v : α) :
    List (String × α) → List (String × α)
  | [] => [(k, v)]
  | (k', v') :: rest =>
      if k' = k then (k, v) :: rest else (k', v') :: dictInsert k v rest

/-- Association-list lookup, mirroring Python `dict.get`. -/
def dictGet {α : Type} (k : String) : List (String × α) → Option α
  | [] => none
  | (k', v') :: rest => if k' = k then some v' else dictGet k rest

/-- The in-memory catalog document `VoiceConfig._config` with the shape every
`load()` result has: a `voices` mapping and a `default_voice` name. -/
structure CatalogDoc where
  voices : List (String × VoiceEntry)
  default_voice : String
  deriving DecidableEq, Repr

/-- Embeds `VoiceConfig.add_voice` (config.py lines 118-127): the in-memory mapping is
mutated first (`self._config["voices"][agent_name] = {...}`), then `save()` is
called. `saveFails` models whether the write to storage raises; when it does,
the exception propagates but the mutation has already happened. The result is
(the call's outcome, the in-memory catalog after the call). -/
def add_voice (cfg : CatalogDoc) (agent_name : String) (file description instruct : String)
    (saveFails : Bool) : Except String Unit × CatalogDoc :=
  let cfg' : CatalogDoc :=
    { cfg with voices := dictInsert agent_name ⟨file, description, instruct⟩ cfg.voices }
  if saveFails then (.error "save failed", cfg') else (.ok (), cfg')

/-! ## POST /v1/voices validation (`app/api/routes/voice.py`) -/

/-- Python `str.isalnum` restricted to ASCII input (every input considered in
this development is ASCII): nonempty and every character alphanumeric. -/
def pyIsAlnum (s : String) : Bool :=
  ¬ s.isEmpty && s.toList.all Char.isAlphanum

/-- Python `"_" in s`. -/
def containsUnderscore (s : String) : Bool :=
  s.toList.any (· = '_')

/-- Outcome of the validation stage of `create_voice` (voice.py lines 71-84). -/
inductive CreateVoiceCheck where
  | reject400
  | reject409
  | proceed
  deriving DecidableEq, Repr

/-- The validation stage of `POST /v1/voices` (voice.py lines 71-84):
400 when `not agent_name.isalnum() and "_" not in agent_name`;
otherwise 409 when the name is already a key of the catalog's voices;
otherwise generation proceeds. -/
def createVoiceCheck (voices : List (String × VoiceEntry)) (agent_name : String) :
    CreateVoiceCheck :=
  if ¬ pyIsAlnum agent_name && ¬ containsUnderscore agent_name then
    .reject400
  else if (dictGet agent_name voices).isSome then
    .reject409
  else
    .proceed

/-- A name made of ASCII letters, digits and underscores only — what the
spec's "alphanumeric/underscore only" requires. -/
def specValidName (s : String) : Bool :=
  s.toList.all fun c => c.isAlphanum || c = '_'

/-! ## TTS manager: prompt cache and speech generation (`app/dependencies.py`) -/

/-- One `VoiceClonePromptItem` of the cloning capability's conditioning
artifact (`create_voice_clone_prompt` returns a list of these). -/
structure PromptItem where
  audio_tokens : List Nat
  text : String
  deriving DecidableEq, Repr

/-- A cached voice prompt: `List[VoiceClonePromptItem]`. -/
def VoicePrompt : Type := List PromptItem

instance : DecidableEq VoicePrompt :=
  inferInstanceAs (DecidableEq (List PromptItem))

instance : Repr VoicePrompt :=
  inferInstanceAs (Repr (List PromptItem))

/-- The value occupying the `voice_clone_prompt=` keyword slot of
`generate_voice_clone`. Python is untyped here, so the slot can hold either
the prompt itself or a further-wrapped list of prompts; `dependencies.py`
line 250 passes the resolved prompt directly, which embeds as `plain`. -/
inductive PromptArg where
  | plain (p : VoicePrompt)
  | wrapped (l : List VoicePrompt)
  deriving DecidableEq

/-- The keyword arguments of the `generate_voice_clone` invocation at
`dependencies.py` lines 247-251. -/
structure CloneCall where
  text : String
  language : String
  voice_clone_prompt : PromptArg
  deriving DecidableEq

/-- Errors `generate_speech` can raise before reaching the model:
`ValueError` (no voice prompt) and `RuntimeError` (model not loaded). -/
inductive GenError where
  | valueError (msg : String)
  | runtimeError (msg : String)
  deriving DecidableEq, Repr

/-- Voice-prompt resolution in `generate_speech` (`dependencies.py` lines
228-236): the agent's cached prompt if present, else the default agent's
cached prompt, else `ValueError`. -/
def resolve_voice_prompt (prompts : List (String × VoicePrompt))
    (default_voice : String) (agent_name : String) : Except GenError VoicePrompt :=
  match dictGet agent_name prompts with
  | some p => .ok p
  | none =>
      match dictGet default_voice prompts with
      | some p => .ok p
      | none =>
          .error (.valueError
            ("No voice prompt available for " ++ agent_name ++ " or default"))

/-- Embeds `TTSManager.generate_speech` (`dependencies.py` lines 223-251), viewed up
to the `generate_voice_clone` invocation: resolves the voice prompt (with
default fallback), checks the base model reference, and produces the record
of the invocation it issues. `baseLoaded` is whether `self.base_model` is
non-`None`. -/
def generate_speech (prompts : List (String × VoicePrompt)) (default_voice : String)
    (baseLoaded : Bool) (text agent_name : String) : Except GenError CloneCall :=
  match resolve_voice_prompt prompts default_voice agent_name with
  | .error e => .error e
  | .ok voice_prompt =>
      if ¬ baseLoaded then .error (.runtimeError "TTS base model not loaded")
      else .ok { text := text, language := "English", voice_clone_prompt := .plain voice_prompt }

/-! ## POST /v1/audio/speech route (`app/api/routes/tts.py`) -/

/-- Python whitespace characters relevant to `str.strip` on ASCII text. -/
def isPyWs (c : Char) : Bool :=
  c = ' ' ∨ c = '\t' ∨ c = '\n' ∨ c = '\r'

/-- Python `str.strip()` on ASCII text. -/
def pyStrip (s : String) : String :=
  String.mk (((s.toList.dropWhile isPyWs).reverse.dropWhile isPyWs).reverse)

/-- Python `a or b` for an optional string `a`: `b` when `a` is `None` or
empty (falsy), else `a`. -/
def pyOr (a : Option String) (b : String) : String :=
  match a with
  | some s => if s = "" then b else s
  | none => b

/-- The request body of `POST /v1/audio/speech`, restricted to the fields the
route reads (`model`, `voice`, `response_format`, `speed` are ignored). -/
structure TTSRequest where
  input : String
  agent : Option String
  deriving DecidableEq

/-- The observable outcome of the `/v1/audio/speech` route: HTTP status, the
`X-Agent-Voice` header of a success response, and the clone invocation made
on success. -/
structure TTSResponse where
  status : Nat
  x_agent_voice : Option String
  call : Option CloneCall
  deriving DecidableEq

/-- Embeds `text_to_speech` (`tts.py` lines 45-87): 400 for oversized or blank
input; resolves `agent_name = request.agent or default_voice`; calls
`generate_speech`; on success returns 200 with `X-Agent-Voice: agent_name`;
`ValueError` is surfaced as 400 and any other failure as 500. -/
def text_to_speech (prompts : List (String × VoicePrompt)) (default_voice : String)
    (baseLoaded : Bool) (req : TTSRequest) : TTSResponse :=
  if 4096 < req.input.toList.length then ⟨400, none, none⟩
  else if pyStrip req.input = "" then ⟨400, none, none⟩
  else
    let agent_name := pyOr req.agent default_voice
    match generate_speech prompts default_voice baseLoaded req.input agent_name with
    | .ok call => ⟨200, some agent_name, some call⟩
    | .error (.valueError _) => ⟨400, none, none⟩
    | .error (.runtimeError _) => ⟨500, none, none⟩

/-! ## Manager lifecycle state (`app/dependencies.py` lines 20-211)

`Settings.model_offload_enabled`, `Settings.model_idle_timeout_seconds` and
`Settings.model_offload_check_interval_seconds` are read by
`dependencies.py` and `health.py` but their field declarations are absent
from the sources; per the spec (§4.4) they are the offload-enabled flag, the
configured idle timeout and the fixed check interval. They appear below as
explicit parameters (`offloadEnabled`, `idleTimeout`). -/

/-- The placement tag `TTSManager._model_location`: `"cuda"`, `"cpu"` or `"unloaded"`. -/
inductive Location where
  | cuda
  | cpu
  | unloaded
  deriving DecidableEq, Repr

/-- A loaded model reference: an identity plus the device its weights
reside on (`.cpu()` / `.cuda()` move it between devices). -/
structure Model where
  id : Nat
  device : Location
  deriving DecidableEq, Repr

/-- Embeds `model.cpu()`. -/
def Model.toCpu (m : Model) : Model := { m with device := .cpu }

/-- The mutable fields of `TTSManager` that the lifecycle operations touch
(`dependencies.py` lines 23-37). Timestamps are integers (`time.time()`
values); the lock, task handle and shutdown event are represented by
whether the offload task has been spawned. -/
structure ManagerState where
  base_model : Option Model
  voice_design_model : Option Model
  stt_model : Option Model
  voice_prompts : List (String × VoicePrompt)
  model_location : Location
  last_tts_request_time : Int
  offload_task : Bool
  initialized : Bool
  deriving DecidableEq, Repr

/-- The state `TTSManager.__init__` establishes. -/
def initialManagerState : ManagerState :=
  { base_model := none
    voice_design_model := none
    stt_model := none
    voice_prompts := []
    model_location := .unloaded
    last_tts_request_time := 0
    offload_task := false
    initialized := false }

/-- The environment a `startup()` run interacts with: the outcome of each
model load (a load that raises propagates out of `startup`), the prompts the
precompute pass succeeds in deriving, the current time, and the offload
setting. -/
structure StartupEnv where
  baseLoad : Except String Model
  designLoad : Except String Model
  sttLoad : Except String Model
  computedPrompts : List (String × VoicePrompt)
  now : Int
  offloadEnabled : Bool

/-- The externally visible work items a `startup()` run performs. -/
inductive StartupAction where
  | loadBase
  | loadDesign
  | loadStt
  | precompute
  deriving DecidableEq, Repr

/-- Embeds `_precompute_voice_prompts` (`dependencies.py` lines 132-148) stores each
successfully derived prompt with `self.voice_prompts[agent_name] = prompt`;
per-entry failures and missing files are skipped, never raised. -/
def precomputePrompts (computed : List (String × VoicePrompt))
    (cache : List (String × VoicePrompt)) : List (String × VoicePrompt) :=
  computed.foldl (fun acc kv => dictInsert kv.1 kv.2 acc) cache

/-- Embeds `TTSManager.startup` (`dependencies.py` lines 39-62): returns immediately
when already initialized; otherwise loads the base, design and STT models in
order (a failing load raises, leaving the fields mutated so far), precomputes
voice prompts, marks the placement `"cuda"`, stamps the idle clock, spawns
the offload monitor when offload is enabled, and sets the initialized flag.
The result is (the call's outcome, the manager state after the call, the
load/precompute work performed). -/
def startup (env : StartupEnv) (s : ManagerState) :
    Except String Unit × ManagerState × List StartupAction :=
  if s.initialized then (.ok (), s, [])
  else
    match env.baseLoad with
    | .error e => (.error e, s, [.loadBase])
    | .ok bm =>
        let s1 := { s with base_model := some bm }
        match env.designLoad with
        | .error e => (.error e, s1, [.loadBase, .loadDesign])
        | .ok dm =>
            let s2 := { s1 with voice_design_model := some dm }
            match env.sttLoad with
            | .error e => (.error e, s2, [.loadBase, .loadDesign, .loadStt])
            | .ok sm =>
                let s3 := { s2 with
                  stt_model := some sm
                  voice_prompts := precomputePrompts env.computedPrompts s2.voice_prompts
                  model_location := .cuda
                  last_tts_request_time := env.now
                  offload_task := if env.offloadEnabled then true else s2.offload_task
                  initialized := true }
                (.ok (), s3, [.loadBase, .loadDesign, .loadStt, .precompute])

/-- Embeds `TTSManager._offload_to_cpu` (`dependencies.py` lines 150-165): under the
offload lock, a no-op unless the placement is `"cuda"`; otherwise moves the
model references to CPU and sets the placement to `"cpu"`. -/
def offload_to_cpu (s : ManagerState) : ManagerState :=
  if s.model_location ≠ .cuda then s
  else
    { s with
      base_model := s.base_model.map Model.toCpu
      voice_design_model := s.voice_design_model.map Model.toCpu
      model_location := .cpu }

/-- One wake-up of `_offload_monitor_loop` (`dependencies.py` lines 192-210)
after the check-interval wait times out: skips when offload is disabled or no
request has ever been stamped; invokes `_offload_to_cpu` when the idle
duration `now - last_tts_request_time` has reached `idleTimeout`. The flag
returned alongside the state records whether `_offload_to_cpu` was invoked. -/
def monitorTick (offloadEnabled : Bool) (idleTimeout : Int) (now : Int)
    (s : ManagerState) : ManagerState × Bool :=
  if ¬ offloadEnabled || s.last_tts_request_time = 0 then (s, false)
  else if idleTimeout ≤ now - s.last_tts_request_time then (offload_to_cpu s, true)
  else (s, false)

/-- The idle-clock stamp `self._last_tts_request_time = time.time()` executed
by every inference-triggering request (`dependencies.py` lines 226, 270). -/
def stampRequest (now : Int) (s : ManagerState) : ManagerState :=
  { s with last_tts_request_time := now }

/-! ## Rate-limit middleware (`app/middleware/rate_limit.py`) -/

/-- The per-IP entry of `RateLimitMiddleware.request_counts`:
`{"count": ..., "reset_time": ...}`. -/
structure RateRecord where
  count : Nat
  reset_time : Int
  deriving DecidableEq, Repr

/-- Embeds `RateLimitMiddleware._check_rate_limit` (`rate_limit.py` lines 22-45) for
one client IP, whose current entry (if any) is `rec`: a first-seen IP opens a
window (`count = 1`, `reset_time = now + window`) and is admitted; a request
after `reset_time` reopens the window and is admitted; otherwise the request
is rejected when the count has reached the limit, else counted and
admitted. Returns (admitted?, the IP's entry after the call). -/
def check_rate_limit (limit : Nat) (windowSeconds : Int) (now : Int)
    (rec : Option RateRecord) : Bool × RateRecord :=
  match rec with
  | none => (true, ⟨1, now + windowSeconds⟩)
  | some r =>
      if r.reset_time < now then (true, ⟨1, now + windowSeconds⟩)
      else if limit ≤ r.count then (false, r)
      else (true, ⟨r.count + 1, r.reset_time⟩)

/-- Embeds `RateLimitMiddleware.dispatch` (`rate_limit.py` lines 54-60): a request
`_check_rate_limit` rejects is answered with status 429 instead of being
passed on. -/
def rateLimitStatus (admitted : Bool) : Option Nat :=
  if admitted then none else some 429

/-- The admission decisions for a sequence of request times from one client
IP, threading the IP's `request_counts` entry through `_check_rate_limit`. -/
def runRequests (limit : Nat) (windowSeconds : Int) :
    List Int → Option RateRecord → List Bool × Option RateRecord
  | [], rec => ([], rec)
  | t :: ts, rec =>
      let br := check_rate_limit limit windowSeconds t rec
      let rest := runRequests limit windowSeconds ts (some br.2)
      (br.1 :: rest.1, rest.2)

/-! ## Auth middleware (`app/middleware/auth.py`) -/

/-- The paths `auth.py` exempts from authentication. -/
def EXEMPT_PATHS : List String :=
  ["/", "/health", "/docs", "/openapi.json", "/redoc"]

/-- The two headers `AuthMiddleware.dispatch` reads (header lookup in
Starlette is case-insensitive, so each is a single optional value). -/
structure AuthHeaders where
  x_api_key : Option String
  authorization : Option String
  deriving DecidableEq

/-- Outcome of `AuthMiddleware.dispatch`: pass the request on, or answer
401/403. -/
inductive AuthOutcome where
  | pass
  | unauthorized401
  | forbidden403
  deriving DecidableEq, Repr

/-- Python `s.startswith(pre)`. -/
def pyStartswith (s pre : String) : Bool :=
  pre.toList.isPrefixOf s.toList

/-- Python `s[n:]`. -/
def pyDropChars (s : String) (n : Nat) : String :=
  String.mk (s.toList.drop n)

/-- API-key extraction in `AuthMiddleware.dispatch` (`auth.py` lines 33-44):
the `X-API-Key` header when present; otherwise (`elif`) the `Authorization`
header with its `"Bearer "` prefix removed, but only when it has that
prefix. -/
def extractApiKey (h : AuthHeaders) : Option String :=
  match h.x_api_key with
  | some v => some v
  | none =>
      match h.authorization with
      | some auth_header =>
          if pyStartswith auth_header "Bearer " then some (pyDropChars auth_header 7)
          else none
      | none => none

/-- Embeds `AuthMiddleware.dispatch` (`auth.py` lines 24-59): no check when no key
is configured (`None` or empty are both falsy) or the path is exempt; then
401 when no (non-empty) key was extracted, 403 when the extracted key differs
from the configured one, else pass. -/
def authDispatch (configuredKey : Option String) (path : String)
    (h : AuthHeaders) : AuthOutcome :=
  if configuredKey.getD "" = "" then .pass
  else if path ∈ EXEMPT_PATHS then .pass
  else
    let api_key := extractApiKey h
    if api_key.getD "" = "" then .unauthorized401
    else if api_key = configuredKey then .pass
    else .forbidden403

/-! ## Catalog document parsing and `VoiceConfig.load` (`app/config.py` 84-90)

`load()` calls `json.load` on the document when the file exists. `json.load`
is the Python standard library; it is modelled here for the JSON fragment the
catalog document uses — objects and strings (with `\"` and backslash
escapes) — and, like the original, it raises a decode error on input it
cannot parse. -/

/-- The JSON values of the catalog-document fragment. -/
inductive Json where
  | str (s : String)
  | obj (members : List (String × Json))

/-- The opening brace character, written by code point. -/
def lbraceChar : Char := Char.ofNat 123

/-- The closing brace character, written by code point. -/
def rbraceChar : Char := Char.ofNat 125

/-- Whitespace skipping of the JSON decoder. -/
def skipWs : List Char → List Char
  | c :: cs => if isPyWs c then skipWs cs else c :: cs
  | [] => []

/-- The body of a JSON string literal, after the opening quote: the decoded
string and the input following the closing quote. Supports the `\"` and `\\`
escapes the catalog documents can contain. -/
def parseStringBody : List Char → Except String (String × List Char)
  | [] => .error "Unterminated string"
  | c :: cs =>
      if c = '"' then .ok ("", cs)
      else if c = '\\' then
        match cs with
        | [] => .error "Unterminated string escape"
        | e :: cs' =>
            if e = '"' ∨ e = '\\' then
              match parseStringBody cs' with
              | .ok (s, rest) => .ok (String.mk (e :: s.toList), rest)
              | .error err => .error err
            else .error "Unsupported string escape"
      else
        match parseStringBody cs with
        | .ok (s, rest) => .ok (String.mk (c :: s.toList), rest)
        | .error err => .error err

mutual

/-- A JSON value of the fragment: a string literal or an object. `fuel`
bounds the recursion depth by the input length. -/
def parseValue : Nat → List Char → Except String (Json × List Char)
  | 0, _ => .error "Expecting value"
  | fuel + 1, input =>
      match skipWs input with
      | [] => .error "Expecting value"
      | c :: cs =>
          if c = '"' then
            match parseStringBody cs with
            | .ok (s, rest) => .ok (.str s, rest)
            | .error err => .error err
          else if c = lbraceChar then
            match parseMembers fuel cs with
            | .ok (ms, rest) => .ok (.obj ms, rest)
            | .error err => .error err
          else .error "Expecting value"

/-- The members of a JSON object, after the opening brace: the key/value
pairs and the input following the closing brace. -/
def parseMembers : Nat → List Char → Except String (List (String × Json) × List Char)
  | 0, _ => .error "Expecting property name"
  | fuel + 1, input =>
      match skipWs input with
      | [] => .error "Unterminated object"
      | c :: cs =>
          if c = rbraceChar then .ok ([], cs)
          else if c = '"' then
            match parseStringBody cs with
            | .error err => .error err
            | .ok (key, afterKey) =>
                match skipWs afterKey with
                | ':' :: afterColon =>
                    match parseValue fuel afterColon with
                    | .error err => .error err
                    | .ok (v, afterVal) =>
                        match skipWs afterVal with
                        | ',' :: afterComma =>
                            match parseMembers fuel afterComma with
                            | .ok (ms, rest) => .ok ((key, v) :: ms, rest)
                            | .error err => .error err
                        | d :: afterBrace =>
                            if d = rbraceChar then .ok ([(key, v)], afterBrace)
                            else .error "Expecting comma delimiter"
                        | [] => .error "Unterminated object"
                | _ => .error "Expecting colon delimiter"
          else .error "Expecting property name"

end

/-- Models `json.load` on the catalog-document fragment: parse one value and
require only whitespace to remain. -/
def parseJson (s : String) : Except String Json :=
  match parseValue (s.toList.length + 1) s.toList with
  | .error err => .error err
  | .ok (j, rest) =>
      match skipWs rest with
      | [] => .ok j
      | _ => .error "Extra data"

/-- The document `load()` builds when the file is absent:
`{"voices": {}, "default_voice": "da"}`. -/
def defaultCatalogDoc : Json :=
  .obj [("voices", .obj []), ("default_voice", .str "da")]

/-- Embeds `VoiceConfig.load` (`config.py` lines 84-90): when the JSON document
exists its parse result becomes `_config` (a parse failure raises, exactly as
`json.load` does); when it is absent, `_config` is the fixed default
document. `storage` is the document's contents when the file exists. -/
def VoiceConfig.load (storage : Option String) : Except String Json :=
  match storage with
  | some contents => parseJson contents
  | none => .ok defaultCatalogDoc

/-! ## Helper lemmas -/

theorem dictGet_dictInsert_self {α : Type} (k : String) (v : α)
    (l : List (String × α)) : dictGet k (dictInsert k v l) = some v := by
  induction l with
  | nil => simp [dictInsert, dictGet]
  | cons hd tl ih =>
      obtain ⟨k', v'⟩ := hd
      by_cases h : k' = k
      · simp [dictInsert, dictGet, h]
      · simp [dictInsert, dictGet, h, ih]

theorem dictGet_dictInsert_ne {α : Type} (k b : String) (hb : b ≠ k) (v : α)
    (l : List (String × α)) : dictGet b (dictInsert k v l) = dictGet b l := by
  induction l with
  | nil => simp [dictInsert, dictGet, Ne.symm hb]
  | cons hd tl ih =>
      obtain ⟨k', v'⟩ := hd
      by_cases h : k' = k
      · subst h
        simp [dictInsert, dictGet, Ne.symm hb]
      · simp [dictInsert, dictGet, h, ih]

/-! ## Claim C1 -/

/-- C1. The claim states every `agent_name` containing a character outside
ASCII letters, digits and underscore is rejected with 400. The code's check
(`voice.py` line 72) is `not agent_name.isalnum() and "_" not in agent_name`,
so a name that contains an underscore is never rejected, whatever other
characters it contains: `"my_voice!"` is not spec-valid, yet the validation
stage lets it proceed to generation (neither 400 nor 409). -/
theorem create_voice_accepts_invalid_underscore_name :
    createVoiceCheck ([] : List (String × VoiceEntry)) "my_voice!" = .proceed
    ∧ specValidName "my_voice!" = false :=
  ⟨rfl, rfl⟩

/-! ## Claim C2 -/

/-- C2 counterexample. With an initially empty catalog, adding agent
`"ghost"` while the persist step fails does raise, but the in-memory catalog
is NOT left unchanged: it now contains the `"ghost"` entry. -/
theorem add_voice_failed_save_mutates_catalog_cex :
    (add_voice ⟨[], "da"⟩ "ghost" "ghost.wav" "desc" "inst" true).1 =
      .error "save failed"
    ∧ (add_voice ⟨[], "da"⟩ "ghost" "ghost.wav" "desc" "inst" true).2 ≠
      (⟨[], "da"⟩ : CatalogDoc) :=
  ⟨rfl, by decide⟩

/-- C2 amended: when persisting fails, `add_voice` raises (the error
propagates to the caller), but the in-memory catalog already holds the new
agent's entry — the mutation precedes the persist attempt (`config.py` lines
122-127). No other agent's entry and not the default-voice name are
changed. -/
theorem add_voice_failed_save_raises_entry_retained (cfg : CatalogDoc)
    (a f d i : String) :
    (add_voice cfg a f d i true).1 = .error "save failed"
    ∧ (add_voice cfg a f d i true).2.voices = dictInsert a ⟨f, d, i⟩ cfg.voices
    ∧ dictGet a (add_voice cfg a f d i true).2.voices = some ⟨f, d, i⟩
    ∧ (add_voice cfg a f d i true).2.default_voice = cfg.default_voice
    ∧ ∀ b, b ≠ a →
        dictGet b (add_voice cfg a f d i true).2.voices = dictGet b cfg.voices := by
  refine ⟨rfl, rfl, ?_, rfl, ?_⟩
  · show dictGet a (dictInsert a ⟨f, d, i⟩ cfg.voices) = some ⟨f, d, i⟩
    exact dictGet_dictInsert_self a ⟨f, d, i⟩ cfg.voices
  · intro b hb
    show dictGet b (dictInsert a ⟨f, d, i⟩ cfg.voices) = dictGet b cfg.voices
    exact dictGet_dictInsert_ne a b hb ⟨f, d, i⟩ cfg.voices

/-- C2 witness: the amended theorem applied to a concrete catalog, agent and
unrelated name. -/
theorem add_voice_failed_save_raises_entry_retained_witness :
    (add_voice ⟨[("da", ⟨"da.wav", "d", "i"⟩)], "da"⟩ "ghost" "g.wav" "gd" "gi" true).1 =
      .error "save failed"
    ∧ dictGet "da"
        (add_voice ⟨[("da", ⟨"da.wav", "d", "i"⟩)], "da"⟩ "ghost" "g.wav" "gd" "gi" true).2.voices =
        dictGet "da" [("da", ⟨"da.wav", "d", "i"⟩)] := by
  have h := add_voice_failed_save_raises_entry_retained
    ⟨[("da", ⟨"da.wav", "d", "i"⟩)], "da"⟩ "ghost" "g.wav" "gd" "gi"
  exact ⟨h.1, h.2.2.2.2 "da" (by decide)⟩

/-! ## Claim C8 -/

/-- C8 counterexample. The claim states `load()` never raises for any
storage state; but when the document is present and malformed, `json.load`
raises a decode error which `load` does not catch (`config.py` lines 86-88):
on the content `"not json"`, `load` fails. -/
theorem load_raises_on_malformed_document_cex :
    VoiceConfig.load (some "not json") = .error "Expecting value" :=
  rfl

/-- C8 amended: `load()` never raises when the document is ABSENT — it then
produces the catalog with an empty voices mapping and default agent name
`"da"`; when the document is present and well-formed it produces the parsed
contents; a present but malformed document makes `load` raise the decode
error. -/
theorem load_absent_defaults_present_parses :
    VoiceConfig.load none = .ok (.obj [("voices", .obj []), ("default_voice", .str "da")])
    ∧ ∀ (s : String) (j : Json), parseJson s = .ok j →
        VoiceConfig.load (some s) = .ok j := by
  refine ⟨rfl, ?_⟩
  intro s j h
  simpa [VoiceConfig.load] using h

/-- C8 witness: a concrete well-formed document is returned parsed, via the
amended theorem. -/
theorem load_absent_defaults_present_parses_witness :
    VoiceConfig.load (some "\"hello\"") = .ok (.str "hello") :=
  load_absent_defaults_present_parses.2 "\"hello\"" (.str "hello") rfl

/-! ## Claim C3 -/

/-- C3. With default agent `"da"` whose prompt is cached and an agent
`"ghost"` with no cached prompt, `generate_speech` uses exactly `"da"`'s
cached prompt for the clone invocation; when neither `"ghost"` nor `"da"`
has a cached prompt, it raises the not-found `ValueError`, which the
`/v1/audio/speech` route surfaces as status 400. -/
theorem generate_speech_default_fallback (prompts : List (String × VoicePrompt))
    (P : VoicePrompt) (text : String) :
    (dictGet "ghost" prompts = none → dictGet "da" prompts = some P →
      generate_speech prompts "da" true text "ghost" =
        .ok { text := text, language := "English", voice_clone_prompt := .plain P })
    ∧ (dictGet "ghost" prompts = none → dictGet "da" prompts = none →
      generate_speech prompts "da" true text "ghost" =
        .error (.valueError "No voice prompt available for ghost or default")
      ∧ (text_to_speech prompts "da" true ⟨"hi", some "ghost"⟩).status = 400) := by
  constructor
  · intro hg hd
    simp [generate_speech, resolve_voice_prompt, hg, hd]
  · intro hg hd
    have hgen : ∀ t : String, generate_speech prompts "da" true t "ghost" =
        .error (.valueError "No voice prompt available for ghost or default") := by
      intro t
      simp [generate_speech, resolve_voice_prompt, hg, hd]
    refine ⟨hgen text, ?_⟩
    unfold text_to_speech
    rw [if_neg (by decide), if_neg (by decide)]
    simp [pyOr, hgen "hi"]

/-- C3 witness: the theorem's two parts at concrete prompt caches. -/
theorem generate_speech_default_fallback_witness :
    generate_speech [("da", ([⟨[1], "t"⟩] : List PromptItem))] "da" true "hi" "ghost" =
      .ok { text := "hi", language := "English",
            voice_clone_prompt := .plain ([⟨[1], "t"⟩] : List PromptItem) }
    ∧ (text_to_speech ([] : List (String × VoicePrompt)) "da" true
        ⟨"hi", some "ghost"⟩).status = 400 :=
  ⟨(generate_speech_default_fallback [("da", ([⟨[1], "t"⟩] : List PromptItem))]
      ([⟨[1], "t"⟩] : List PromptItem) "hi").1 rfl rfl,
   ((generate_speech_default_fallback ([] : List (String × VoicePrompt))
      ([] : List PromptItem) "hi").2 rfl rfl).2⟩

/-! ## Claim C4 -/

/-- C4. Whatever cached prompt `P` the resolution step of `generate_speech`
produces, the `voice_clone_prompt=` slot of the clone invocation holds `P`
itself, and that value differs from every re-wrapped form
`PromptArg.wrapped l` — in particular from the single-element wrapper
`PromptArg.wrapped [P]`. -/
theorem voice_prompt_passed_unwrapped (prompts : List (String × VoicePrompt))
    (default_voice text agent_name : String) (P : VoicePrompt)
    (h : resolve_voice_prompt prompts default_voice agent_name = .ok P) :
    generate_speech prompts default_voice true text agent_name =
      .ok { text := text, language := "English", voice_clone_prompt := .plain P }
    ∧ ∀ l : List VoicePrompt, PromptArg.plain P ≠ PromptArg.wrapped l := by
  constructor
  · simp [generate_speech, h]
  · intro l hcontra
    exact PromptArg.noConfusion hcontra

/-- C4 witness: the theorem at a concrete cache, with the wrapper
instantiated to `[P]`. -/
theorem voice_prompt_passed_unwrapped_witness :
    generate_speech [("da", ([⟨[1], "t"⟩] : List PromptItem))] "da" true "hi" "da" =
      .ok { text := "hi", language := "English",
            voice_clone_prompt := .plain ([⟨[1], "t"⟩] : List PromptItem) }
    ∧ PromptArg.plain ([⟨[1], "t"⟩] : List PromptItem) ≠
      PromptArg.wrapped [([⟨[1], "t"⟩] : List PromptItem)] :=
  ⟨(voice_prompt_passed_unwrapped [("da", ([⟨[1], "t"⟩] : List PromptItem))]
      "da" "hi" "da" ([⟨[1], "t"⟩] : List PromptItem) rfl).1,
   (voice_prompt_passed_unwrapped [("da", ([⟨[1], "t"⟩] : List PromptItem))]
      "da" "hi" "da" ([⟨[1], "t"⟩] : List PromptItem) rfl).2
      [([⟨[1], "t"⟩] : List PromptItem)]⟩

/-! ## Claim C9 -/

/-- C9. Every 200 response of `/v1/audio/speech` carries
`X-Agent-Voice: request.agent or default_voice` (the Python `or`: the agent
field when provided non-empty, the catalog default when absent); and in the
fallback scenario — agent `"ghost"` uncached, default `"da"` cached — the
response succeeds with header `"ghost"` while the clone invocation used
`"da"`'s cached prompt, so the header names an agent whose own cached
prompt was not the one used. -/
theorem x_agent_voice_header_policy :
    (∀ (prompts : List (String × VoicePrompt)) (dv : String) (b : Bool)
        (req : TTSRequest),
      (text_to_speech prompts dv b req).status = 200 →
      (text_to_speech prompts dv b req).x_agent_voice = some (pyOr req.agent dv))
    ∧ (∀ (prompts : List (String × VoicePrompt)) (P : VoicePrompt),
      dictGet "ghost" prompts = none → dictGet "da" prompts = some P →
      text_to_speech prompts "da" true ⟨"hi", some "ghost"⟩ =
        ⟨200, some "ghost", some ⟨"hi", "English", .plain P⟩⟩) := by
  constructor
  · intro prompts dv b req h
    unfold text_to_speech at h ⊢
    by_cases h1 : 4096 < req.input.toList.length
    · rw [if_pos h1] at h
      simp at h
    · rw [if_neg h1] at h ⊢
      by_cases h2 : pyStrip req.input = ""
      · rw [if_pos h2] at h
        simp at h
      · rw [if_neg h2] at h ⊢
        rcases hg : generate_speech prompts dv b req.input (pyOr req.agent dv) with e | call
        · rcases e with msg | msg <;> simp [hg] at h
        · simp [hg]
  · intro prompts P hg hd
    have hgen : generate_speech prompts "da" true "hi" "ghost" =
        .ok { text := "hi", language := "English", voice_clone_prompt := .plain P } := by
      simp [generate_speech, resolve_voice_prompt, hg, hd]
    unfold text_to_speech
    rw [if_neg (by decide), if_neg (by decide)]
    simp [pyOr, hgen]

/-- C9 witness: both parts at a concrete cache holding only `"da"`'s
prompt. -/
theorem x_agent_voice_header_policy_witness :
    (text_to_speech [("da", ([⟨[1], "t"⟩] : List PromptItem))] "da" true
        ⟨"hi", some "ghost"⟩).x_agent_voice = some (pyOr (some "ghost") "da")
    ∧ text_to_speech [("da", ([⟨[1], "t"⟩] : List PromptItem))] "da" true
        ⟨"hi", some "ghost"⟩ =
      ⟨200, some "ghost", some ⟨"hi", "English", .plain ([⟨[1], "t"⟩] : List PromptItem)⟩⟩ :=
  ⟨x_agent_voice_header_policy.1 [("da", ([⟨[1], "t"⟩] : List PromptItem))] "da" true
      ⟨"hi", some "ghost"⟩ rfl,
   x_agent_voice_header_policy.2 [("da", ([⟨[1], "t"⟩] : List PromptItem))]
      ([⟨[1], "t"⟩] : List PromptItem) rfl rfl⟩

/-! ## Claim C5 -/

/-- C5. `startup()` is idempotent: once a call has completed successfully,
a further call — whatever its environment — performs no load or precompute
work (its action list is empty) and returns with the manager state exactly
as the first call left it, prompt cache, model references, placement tag and
initialized flag included. -/
theorem startup_second_call_noop (env env2 : StartupEnv) (s0 s1 : ManagerState)
    (acts : List StartupAction) (h : startup env s0 = (.ok (), s1, acts)) :
    startup env2 s1 = (.ok (), s1, []) := by
  have hinit : s1.initialized = true := by
    unfold startup at h
    by_cases h0 : s0.initialized = true
    · rw [if_pos h0] at h
      simp only [Prod.mk.injEq] at h
      obtain ⟨-, hs, -⟩ := h
      subst hs
      exact h0
    · rw [if_neg h0] at h
      rcases hb : env.baseLoad with e | bm <;> simp only [hb] at h
      · simp at h
      rcases hd : env.designLoad with e | dm <;> simp only [hd] at h
      · simp at h
      rcases hstt : env.sttLoad with e | sm <;> simp only [hstt] at h
      · simp at h
      simp only [Prod.mk.injEq] at h
      obtain ⟨-, hs, -⟩ := h
      subst hs
      rfl
  unfold startup
  rw [if_pos hinit]

/-- C5 witness: a concrete first startup from the `__init__` state, after
which a second call (under an environment whose loads would all fail if they
ran) is a no-op. -/
theorem startup_second_call_noop_witness :
    startup
      ⟨.error "down", .error "down", .error "down", [], 999, false⟩
      { base_model := some ⟨1, .cuda⟩
        voice_design_model := some ⟨2, .cuda⟩
        stt_model := some ⟨3, .cuda⟩
        voice_prompts := [("da", ([⟨[1], "t"⟩] : List PromptItem))]
        model_location := .cuda
        last_tts_request_time := 100
        offload_task := true
        initialized := true } =
    (.ok (),
      { base_model := some ⟨1, .cuda⟩
        voice_design_model := some ⟨2, .cuda⟩
        stt_model := some ⟨3, .cuda⟩
        voice_prompts := [("da", ([⟨[1], "t"⟩] : List PromptItem))]
        model_location := .cuda
        last_tts_request_time := 100
        offload_task := true
        initialized := true }, []) :=
  startup_second_call_noop
    ⟨.ok ⟨1, .cuda⟩, .ok ⟨2, .cuda⟩, .ok ⟨3, .cuda⟩,
      [("da", ([⟨[1], "t"⟩] : List PromptItem))], 100, true⟩
    ⟨.error "down", .error "down", .error "down", [], 999, false⟩
    initialManagerState _
    [.loadBase, .loadDesign, .loadStt, .precompute] rfl

/-! ## Claim C6 -/

/-- Any monitor wake-up leaves a state whose placement is not
accelerator-resident unchanged. -/
theorem monitorTick_fst_of_not_cuda (e : Bool) (T now : Int) (s : ManagerState)
    (h : s.model_location ≠ .cuda) : (monitorTick e T now s).1 = s := by
  unfold monitorTick
  split
  · rfl
  · split
    · simp [offload_to_cpu, h]
    · rfl

/-- C6. The idle monitor (offload enabled, idle timeout `T`): an offload is
invoked only when offload is enabled, at least one request has been stamped,
and the elapsed time since the stamp is at least `T`; `_offload_to_cpu` is a
no-op whenever the placement is not `"cuda"`, so after the one effective
offload of an idle period every further wake-up leaves the state unchanged;
and a wake-up less than `T` after the stamped request time changes nothing
and invokes no offload (a fresh request re-stamps the clock, suppressing the
offload for that period). -/
theorem offload_monitor_properties (e : Bool) (T now : Int) (s : ManagerState) :
    ((monitorTick e T now s).2 = true →
      e = true ∧ s.last_tts_request_time ≠ 0 ∧ T ≤ now - s.last_tts_request_time)
    ∧ (s.model_location ≠ .cuda → offload_to_cpu s = s)
    ∧ (s.model_location = .cuda → (monitorTick e T now s).2 = true →
      (monitorTick e T now s).1.model_location = .cpu
      ∧ ∀ now2 : Int,
          (monitorTick e T now2 (monitorTick e T now s).1).1 = (monitorTick e T now s).1)
    ∧ (∀ now2 : Int, now2 - s.last_tts_request_time < T →
        monitorTick e T now2 s = (s, false))
    ∧ (∀ now0 : Int, (stampRequest now0 s).last_tts_request_time = now0) := by
  refine ⟨?_, ?_, ?_, ?_, fun now0 => rfl⟩
  · intro htick
    unfold monitorTick at htick
    by_cases hc : (¬ e || s.last_tts_request_time = 0) = true
    · rw [if_pos hc] at htick
      simp at htick
    · rw [if_neg hc] at htick
      simp only [Bool.or_eq_true, Bool.not_eq_true', decide_eq_true_eq, not_or, not_not] at hc
      by_cases hidle : T ≤ now - s.last_tts_request_time
      · exact ⟨hc.1, hc.2, hidle⟩
      · rw [if_neg hidle] at htick
        simp at htick
  · intro h
    simp [offload_to_cpu, h]
  · intro hcuda htick
    have hloc : (monitorTick e T now s).1.model_location = .cpu := by
      unfold monitorTick at htick ⊢
      by_cases hc : (¬ e || s.last_tts_request_time = 0) = true
      · rw [if_pos hc] at htick
        simp at htick
      · rw [if_neg hc] at htick ⊢
        by_cases hidle : T ≤ now - s.last_tts_request_time
        · rw [if_pos hidle]
          simp [offload_to_cpu, hcuda]
        · rw [if_neg hidle] at htick
          simp at htick
    refine ⟨hloc, fun now2 => ?_⟩
    exact monitorTick_fst_of_not_cuda e T now2 _ (by simp [hloc])
  · intro now2 hlt
    unfold monitorTick
    split
    · rfl
    · rw [if_neg (not_le.mpr hlt)]

/-- C6 witness: the theorem's parts at concrete states and times
(`T = 300`): a tick at idle 300 offloads a cuda-resident manager to cpu,
later ticks leave it unchanged, and a tick 100 after a stamped request
changes nothing. -/
theorem offload_monitor_properties_witness :
    (offload_to_cpu
        { initialManagerState with model_location := .cpu, last_tts_request_time := 100 } =
      { initialManagerState with model_location := .cpu, last_tts_request_time := 100 })
    ∧ (monitorTick true 300 400
        { initialManagerState with model_location := .cuda, last_tts_request_time := 100 }).1.model_location = .cpu
    ∧ (monitorTick true 300 900
        (monitorTick true 300 400
          { initialManagerState with model_location := .cuda, last_tts_request_time := 100 }).1).1 =
      (monitorTick true 300 400
        { initialManagerState with model_location := .cuda, last_tts_request_time := 100 }).1
    ∧ monitorTick true 300 200
        { initialManagerState with model_location := .cuda, last_tts_request_time := 100 } =
      ({ initialManagerState with model_location := .cuda, last_tts_request_time := 100 }, false) := by
  refine ⟨?_, ?_, ?_, ?_⟩
  · exact (offload_monitor_properties true 300 400
      { initialManagerState with model_location := .cpu, last_tts_request_time := 100 }).2.1
      (by decide)
  · exact (((offload_monitor_properties true 300 400
      { initialManagerState with model_location := .cuda, last_tts_request_time := 100 }).2.2.1
      rfl rfl).1)
  · exact (((offload_monitor_properties true 300 400
      { initialManagerState with model_location := .cuda, last_tts_request_time := 100 }).2.2.1
      rfl rfl).2 900)
  · exact (offload_monitor_properties true 300 400
      { initialManagerState with model_location := .cuda, last_tts_request_time := 100 }).2.2.2.1
      200 (by norm_num)

/-! ## Claim C7 -/

/-- The function `runRequests` distributes over list append, threading the record. -/
theorem runRequests_append (limit : Nat) (w : Int) (xs ys : List Int)
    (rec : Option RateRecord) :
    runRequests limit w (xs ++ ys) rec =
      ((runRequests limit w xs rec).1 ++
        (runRequests limit w ys (runRequests limit w xs rec).2).1,
       (runRequests limit w ys (runRequests limit w xs rec).2).2) := by
  induction xs generalizing rec with
  | nil => simp [runRequests]
  | cons t ts ih => simp [runRequests, ih]

/-- Requests at or before the record's reset time, while the count stays
within the limit, are all admitted and only increment the counter. -/
theorem runRequests_all_in_window (limit : Nat) (w rt : Int) (c : Nat)
    (ts : List Int) (hin : ∀ t ∈ ts, t ≤ rt) (hc : 1 ≤ c)
    (hlen : c + ts.length ≤ limit) :
    runRequests limit w ts (some ⟨c, rt⟩) =
      (List.replicate ts.length true, some ⟨c + ts.length, rt⟩) := by
  induction ts generalizing c with
  | nil => simp [runRequests]
  | cons t ts ih =>
      have hnotreset : ¬ rt < t := not_lt.mpr (hin t (by simp))
      have hnotlimit : ¬ limit ≤ c := by
        simp only [List.length_cons] at hlen
        omega
      have hrec := ih (fun t' ht' => hin t' (by simp [ht'])) (c := c + 1)
        (by omega) (by simp only [List.length_cons] at hlen; omega)
      simp only [runRequests, check_rate_limit]
      rw [if_neg hnotreset, if_neg hnotlimit]
      rw [hrec]
      rw [List.length_cons, List.replicate_succ]
      rw [show c + 1 + ts.length = c + (ts.length + 1) by omega]

/-- C7. Fixed-window rate limiting with limit 10 and window 60 for one
client IP: starting from no record, the first request (at `t0`) and the
following nine requests within the window (at times at most `t0 + 60`) are
admitted, the 11th in-window request is rejected — and `dispatch` answers a
rejected request with 429; the record then still holds the window opened at
`t0`, and any request strictly more than 60 seconds after the window opened
resets the counter and is admitted. -/
theorem rate_limit_fixed_window (t0 t11 : Int) (ts : List Int)
    (hlen : ts.length = 9) (hin : ∀ t ∈ ts, t ≤ t0 + 60) (h11 : t11 ≤ t0 + 60) :
    (runRequests 10 60 (t0 :: (ts ++ [t11])) none).1 =
      List.replicate 10 true ++ [false]
    ∧ (runRequests 10 60 (t0 :: (ts ++ [t11])) none).2 = some ⟨10, t0 + 60⟩
    ∧ rateLimitStatus false = some 429
    ∧ (∀ (now : Int) (r : RateRecord), r.reset_time < now →
        check_rate_limit 10 60 now (some r) = (true, ⟨1, now + 60⟩)) := by
  have hfirst : check_rate_limit 10 60 t0 none = (true, ⟨1, t0 + 60⟩) := rfl
  have hmid : runRequests 10 60 ts (some ⟨1, t0 + 60⟩) =
      (List.replicate 9 true, some ⟨10, t0 + 60⟩) := by
    have := runRequests_all_in_window 10 60 (t0 + 60) 1 ts hin le_rfl
      (by omega)
    rw [hlen] at this
    exact this
  have hlast : check_rate_limit 10 60 t11 (some ⟨10, t0 + 60⟩) =
      (false, ⟨10, t0 + 60⟩) := by
    simp only [check_rate_limit]
    rw [if_neg (not_lt.mpr h11), if_pos le_rfl]
  have hrun : runRequests 10 60 (t0 :: (ts ++ [t11])) none =
      (true :: (List.replicate 9 true ++ [false]), some ⟨10, t0 + 60⟩) := by
    simp only [runRequests, hfirst]
    rw [runRequests_append]
    simp [runRequests, hmid, hlast]
  refine ⟨?_, ?_, rfl, ?_⟩
  · rw [hrun]
    simp [List.replicate_succ]
  · rw [hrun]
  · intro now r hreset
    simp only [check_rate_limit]
    rw [if_pos hreset]

/-- C7 witness: eleven requests at time 0 — ten admitted, the 11th
rejected — and a request at time 61 against the window opened at 0 (reset
time 60) reopens the window and is admitted. -/
theorem rate_limit_fixed_window_witness :
    (runRequests 10 60 ((0 : Int) :: (List.replicate 9 (0 : Int) ++ [0])) none).1 =
      List.replicate 10 true ++ [false]
    ∧ check_rate_limit 10 60 61 (some ⟨10, 60⟩) = (true, ⟨1, 121⟩) := by
  have h := rate_limit_fixed_window 0 0 (List.replicate 9 0)
    (by simp)
    (by intro t ht; rw [List.eq_of_mem_replicate ht]; norm_num)
    (by norm_num)
  refine ⟨h.1, ?_⟩
  have := h.2.2.2 61 ⟨10, 60⟩ (by norm_num)
  simpa using this

/-! ## Claim C10 -/

/-- C10. With a non-empty key configured and the path not exempt: when both
headers are present, only the `X-API-Key` value is compared — a wrong
`X-API-Key` yields 403 even though the `Authorization` header carries the
correct key as a Bearer token; and an `Authorization` header that does not
start with `"Bearer "` (with no `X-API-Key`) counts as a missing key,
yielding 401 rather than 403. -/
theorem auth_key_header_precedence :
    (∀ (key w path : String), key ≠ "" → path ∉ EXEMPT_PATHS → w ≠ "" → w ≠ key →
      authDispatch (some key) path ⟨some w, some ("Bearer " ++ key)⟩ = .forbidden403)
    ∧ (∀ (key a path : String), key ≠ "" → path ∉ EXEMPT_PATHS →
        pyStartswith a "Bearer " = false →
        authDispatch (some key) path ⟨none, some a⟩ = .unauthorized401) := by
  constructor
  · intro key w path hk hp hw hwk
    simp [authDispatch, extractApiKey, hk, hp, hw, hwk]
  · intro key a path hk hp hpre
    simp [authDispatch, extractApiKey, hk, hp, hpre]

/-- C10 witness: concrete configured key `"secret"`, wrong `X-API-Key`
`"wrong"` alongside `Authorization: Bearer secret` on `/v1/voices`; and an
`Authorization: Token abc` header alone. -/
theorem auth_key_header_precedence_witness :
    authDispatch (some "secret") "/v1/voices"
      ⟨some "wrong", some ("Bearer " ++ "secret")⟩ = .forbidden403
    ∧ authDispatch (some "secret") "/v1/voices"
      ⟨none, some "Token abc"⟩ = .unauthorized401 :=
  ⟨auth_key_header_precedence.1 "secret" "wrong" "/v1/voices"
      (by decide) (by decide) (by decide) (by decide),
   auth_key_header_precedence.2 "secret" "Token abc" "/v1/voices"
      (by decide) (by decide) (by decide)⟩

end VoiceServer
